import Mathlib

/-
Verification development for the leo-web-monitor SDK.

Shallow embedding of the TypeScript sources:
  - ErrorHandler (core/leo-web-monitor.ts): bounded capture queue.
  - Reporter (core/reporter.ts): pending report list, debounced batch
    delivery with single-flight guard, retry with exponential backoff.
  - FrameMonitor (utils/frame-monitor.ts): smoothness score.
  - BlankScreenDetector (utils/blank-screen-detector.ts): blank-viewport
    classification.
  - LeoWebMonitor (core/leo-web-monitor.ts): lifecycle, global hook
    installation and restoration.

Machine numbers that the claims depend on are modelled as Nat, Int and
Rat; JavaScript Math.round x is floor (x + 1/2), which matches
Mathlib round on Rat.
-/

namespace LeoMonitor

/-- Closed enum of record kinds (types/index.ts, ErrorType). -/
inductive ErrorType
  | javascriptError
  | promiseError
  | resourceError
  | networkError
  | blankScreenError
  | customError
deriving DecidableEq, Repr

/-- Canonical captured record (types/index.ts, ErrorInfo).  Fields not
inspected by any claim (stack, filename, line, column, extra map) are
omitted; the claims only move records around unchanged. -/
structure ErrorInfo where
  message : String
  type : ErrorType
  timestamp : Nat
  url : String
deriving DecidableEq, Repr

/-- A concrete record used to instantiate counterexamples and witnesses. -/
def sampleError : ErrorInfo :=
  { message := "Error 1", type := ErrorType.customError, timestamp := 0, url := "" }

/-- A second concrete record, distinguishable from the first. -/
def sampleError2 : ErrorInfo :=
  { message := "Error 2", type := ErrorType.customError, timestamp := 1, url := "" }

/-- ErrorHandler.addToQueue (core/leo-web-monitor.ts):
if the queue length has reached maxQueueSize, shift off the oldest
record, then push the new one. -/
def addToQueue (maxQueueSize : Nat) (q : List ErrorInfo) (e : ErrorInfo) : List ErrorInfo :=
  if maxQueueSize ≤ q.length then q.tail ++ [e] else q ++ [e]

/-- Folding a sequence of accepted captures through ErrorHandler.addToQueue,
starting from the empty queue of a fresh ErrorHandler. -/
def runCaptures (maxQueueSize : Nat) (es : List ErrorInfo) : List ErrorInfo :=
  es.foldl (addToQueue maxQueueSize) []

/-- State of the Reporter (core/reporter.ts): the pending list
reportQueue and the single-flight flag isReporting are the mutable
fields of the class.  inFlight is the batch detached by batchReport for
the delivery attempt that is currently outstanding (the local variable
errors inside batchReport); acceptedCount and deliveredCount are ghost
counters of records accepted by addToReportQueue and records whose
batch was delivered successfully. -/
structure ReporterState where
  reportQueue : List ErrorInfo
  isReporting : Bool
  inFlight : List ErrorInfo
  acceptedCount : Nat
  deliveredCount : Nat
deriving DecidableEq, Repr

/-- State of a freshly constructed Reporter. -/
def initialReporterState : ReporterState :=
  { reportQueue := [], isReporting := false, inFlight := [],
    acceptedCount := 0, deliveredCount := 0 }

/-- Reporter.addToReportQueue: this.reportQueue.push(...errors).
No capacity check and no eviction occur in the source. -/
def addToReportQueue (s : ReporterState) (errors : List ErrorInfo) : ReporterState :=
  { s with reportQueue := s.reportQueue ++ errors,
           acceptedCount := s.acceptedCount + errors.length }

/-- Events of the single-threaded Reporter: an arrival of accepted
records, the synchronous head of batchReport (guard plus detaching the
whole pending list), and the two ways the awaited sendRequest can come
back (success, or failure after exhausting every retry, which lands in
the catch block of batchReport). -/
inductive ReporterEvent
  | add (errors : List ErrorInfo)
  | flushStart
  | flushSuccess
  | flushFail
deriving DecidableEq, Repr

/-- One step of the Reporter.  flushStart models the start of
batchReport: a no-op when a flush is outstanding or the pending list is
empty, otherwise it detaches the entire pending list as the outbound
batch and raises the single-flight flag.  flushSuccess models the
successful return of sendRequest (batch discarded, success logged).
flushFail models the catch block: this.reportQueue.unshift(...errors)
re-prepends the whole batch, then the finally block lowers the flag.
The failure is logged and never rethrown, so the step is total. -/
def reporterStep (s : ReporterState) : ReporterEvent → ReporterState
  | ReporterEvent.add errors => addToReportQueue s errors
  | ReporterEvent.flushStart =>
      if s.isReporting ∨ s.reportQueue = [] then s
      else { s with inFlight := s.reportQueue, reportQueue := [], isReporting := true }
  | ReporterEvent.flushSuccess =>
      if s.isReporting then
        { s with deliveredCount := s.deliveredCount + s.inFlight.length,
                 inFlight := [], isReporting := false }
      else s
  | ReporterEvent.flushFail =>
      if s.isReporting then
        { s with reportQueue := s.inFlight ++ s.reportQueue,
                 inFlight := [], isReporting := false }
      else s

/-- Run a sequence of Reporter events from the fresh state. -/
def runReporter (events : List ReporterEvent) : ReporterState :=
  events.foldl reporterStep initialReporterState

/-- Reporter.getPendingCount: return this.reportQueue.length. -/
def getPendingCount (s : ReporterState) : Nat :=
  s.reportQueue.length

/-- SDKError (types/index.ts): message plus machine-readable code. -/
structure SDKError where
  message : String
  code : String
deriving DecidableEq, Repr

/-- The error thrown by Reporter.sendRequest after the final failed
attempt. -/
def reportFailedError : SDKError :=
  { message := "Failed to report errors after all retries", code := "REPORT_FAILED" }

/-- The error thrown when the retry loop body never runs
(retryTimes = 0 falls through the for loop). -/
def unexpectedError : SDKError :=
  { message := "Unexpected error in sendRequest", code := "UNEXPECTED_ERROR" }

/-- Observable outcome of Reporter.sendRequest: the result (ok carries
the 1-based index of the successful attempt), the number of attempts
actually made, and the list of backoff delays awaited between attempts,
in order. -/
structure SendResult where
  outcome : Except SDKError Nat
  attempts : Nat
  delays : List Nat
deriving Repr

/-- The retry loop of Reporter.sendRequest, parametrised by an oracle
succeeds that says whether the transport attempt with a given 1-based
index succeeds (makeRequest returning, versus throwing on transport
failure, timeout, or non-success response).  attempt is the loop
variable; remaining counts the loop iterations still allowed, so the
loop runs while remaining is positive.  A failed attempt that is not
the last one awaits delay(Math.pow(2, attempt - 1) * 1000) and
retries; the last failed attempt throws REPORT_FAILED without
delaying. -/
def sendLoop (succeeds : Nat → Bool) (attempt : Nat) : Nat → SendResult
  | 0 => { outcome := Except.error unexpectedError, attempts := 0, delays := [] }
  | remaining + 1 =>
      if succeeds attempt then
        { outcome := Except.ok attempt, attempts := 1, delays := [] }
      else if remaining = 0 then
        { outcome := Except.error reportFailedError, attempts := 1, delays := [] }
      else
        let rest := sendLoop succeeds (attempt + 1) remaining
        { outcome := rest.outcome,
          attempts := rest.attempts + 1,
          delays := 2 ^ (attempt - 1) * 1000 :: rest.delays }

/-- Reporter.sendRequest: attempts run from 1 to retryTimes. -/
def sendRequest (succeeds : Nat → Bool) (retryTimes : Nat) : SendResult :=
  sendLoop succeeds 1 retryTimes

/-- The fields of FrameMonitor (utils/frame-monitor.ts) that the
smoothness score reads: the total number of frame samples observed,
the counts of long and severe samples, and the fps-history ring
(capped at 60 entries by updateFPS; the cap does not matter for the
score formula itself). -/
structure FrameMonitorState where
  frameCount : Nat
  longFrameCount : Nat
  severeFrameCount : Nat
  fpsHistory : List ℚ
deriving DecidableEq, Repr

/-- FrameMonitor.calculateAvgFPS: 0 when the fps history is empty,
otherwise the sum of the history divided by its length. -/
def calculateAvgFPS (st : FrameMonitorState) : ℚ :=
  if st.fpsHistory.length = 0 then 0
  else st.fpsHistory.sum / (st.fpsHistory.length : ℚ)

/-- FrameMonitor.calculateSmoothScore, transcribed from the source:
100 when no frame has been observed; otherwise
Math.round(Math.max(0, 100 - longFramePenalty - severeFramePenalty + (fpsScore - 50)))
with fpsScore = Math.min(avgFps / 60, 1) * 50,
longFramePenalty = (longFrameCount / frameCount) * 30 and
severeFramePenalty = (severeFrameCount / frameCount) * 50. -/
def calculateSmoothScore (st : FrameMonitorState) : ℤ :=
  if st.frameCount = 0 then 100
  else
    let avgFps := calculateAvgFPS st
    let longRate : ℚ := (st.longFrameCount : ℚ) / (st.frameCount : ℚ)
    let severeRate : ℚ := (st.severeFrameCount : ℚ) / (st.frameCount : ℚ)
    let fpsScore : ℚ := min (avgFps / 60) 1 * 50
    round (max 0 (100 - longRate * 30 - severeRate * 50 + (fpsScore - 50)))

/-- The score formula exactly as the specification words it, for
comparison with the source function: clamp((min(avgFps/60, 1) x 50)
- 50 + 50 - longRatio x 30 - severeRatio x 50, 0, 100) rounded, and
100 when zero samples have been observed. -/
def specSmoothScore (st : FrameMonitorState) : ℤ :=
  if st.frameCount = 0 then 100
  else
    let avgFps := calculateAvgFPS st
    let longRate : ℚ := (st.longFrameCount : ℚ) / (st.frameCount : ℚ)
    let severeRate : ℚ := (st.severeFrameCount : ℚ) / (st.frameCount : ℚ)
    let fpsScore : ℚ := min (avgFps / 60) 1 * 50
    round (min 100 (max 0 (fpsScore - 50 + 50 - longRate * 30 - severeRate * 50)))

/-- The amended closed form: the code computes
clamp((min(avgFps/60, 1) x 50) + 50 - longRatio x 30 - severeRatio x 50, 0, 100)
rounded (the upper clamp is vacuous because the expression never
exceeds 100), and 100 with zero samples. -/
def amendedSmoothScore (st : FrameMonitorState) : ℤ :=
  if st.frameCount = 0 then 100
  else
    let avgFps := calculateAvgFPS st
    let longRate : ℚ := (st.longFrameCount : ℚ) / (st.frameCount : ℚ)
    let severeRate : ℚ := (st.severeFrameCount : ℚ) / (st.frameCount : ℚ)
    let fpsScore : ℚ := min (avgFps / 60) 1 * 50
    round (min 100 (max 0 (fpsScore + 50 - longRate * 30 - severeRate * 50)))

/-- The slice of FrameMonitor.getPerformanceData that is derived purely
from the sample statistics (the clock-derived fields fps and duration
need the ambient high-resolution clock and are outside this model). -/
structure FramePerformanceData where
  avgFps : ℚ
  longFrameCount : Nat
  severeFrameCount : Nat
  totalFrames : Nat
  smoothScore : ℤ
deriving DecidableEq, Repr

/-- FrameMonitor.getPerformanceData, restricted to the statistics
fields: every snapshot surfaces smoothScore = calculateSmoothScore. -/
def getPerformanceData (st : FrameMonitorState) : FramePerformanceData :=
  { avgFps := calculateAvgFPS st,
    longFrameCount := st.longFrameCount,
    severeFrameCount := st.severeFrameCount,
    totalFrames := st.frameCount,
    smoothScore := calculateSmoothScore st }

/-- Configuration of the BlankScreenDetector (types/index.ts,
BlankScreenConfig); threshold 0.8 is the rational 4/5. -/
structure BlankScreenConfig where
  sampleCount : Nat
  threshold : ℚ
deriving DecidableEq, Repr

/-- BlankScreenDetector.DEFAULT_CONFIG: sampleCount 10, threshold 0.8. -/
def defaultBlankScreenConfig : BlankScreenConfig :=
  { sampleCount := 10, threshold := 4 / 5 }

/-- BlankScreenDetector.detectBlankScreen, with the per-point random
sampling abstracted by blankPoints, the number of the sampleCount
sampled points that isPointBlank classifies as blank.  A viewport of
zero width or zero height returns true before any sampling; otherwise
the result is blankRatio >= threshold with
blankRatio = blankPoints / sampleCount. -/
def detectBlankScreen (cfg : BlankScreenConfig) (viewportWidth viewportHeight : Nat)
    (blankPoints : Nat) : Bool :=
  if viewportWidth = 0 ∨ viewportHeight = 0 then true
  else decide (cfg.threshold ≤ (blankPoints : ℚ) / (cfg.sampleCount : ℚ))

/-- BlankScreenDetector.manualCheck: runs detectBlankScreen immediately
(reporting on a positive outcome) and resolves with its boolean
result, bypassing the delay and scheduling path. -/
def manualCheck (cfg : BlankScreenConfig) (viewportWidth viewportHeight : Nat)
    (blankPoints : Nat) : Bool :=
  detectBlankScreen cfg viewportWidth viewportHeight blankPoints

/-- A value occupying one of the single global hook slots: either a
handler pre-installed by the host page, or one of the two handlers the
monitor installs in setupGlobalErrorHandlers. -/
inductive Hook
  | user (id : Nat)
  | monitorError
  | monitorRejection
deriving DecidableEq, Repr

/-- Observable installation state of the hosting page: the two single
hook slots, the number of capturing error listeners added with
addEventListener(..., true), whether the scroll and touchstart
listeners are attached, and which callback chains and timers are
active. -/
structure HostState where
  onerror : Option Hook
  onunhandledrejection : Option Hook
  errorCaptureListeners : Nat
  scrollListeners : Bool
  rafActive : Bool
  updateIntervalActive : Bool
  autoReportIntervalActive : Bool
  scrollTimeoutActive : Bool
  blankCheckTimerActive : Bool
deriving DecidableEq, Repr

/-- Configuration flags of LeoWebMonitor that the lifecycle reads. -/
structure MonitorConfig where
  autoCapture : Bool
  blankScreenEnabled : Bool
  frameMonitorEnabled : Bool
  monitorScroll : Bool
  autoReport : Bool
deriving DecidableEq, Repr

/-- LeoWebMonitor.DEFAULT_CONFIG: autoCapture true, blankScreen and
frameMonitor enabled, monitorScroll true, autoReport false. -/
def defaultMonitorConfig : MonitorConfig :=
  { autoCapture := true, blankScreenEnabled := true, frameMonitorEnabled := true,
    monitorScroll := true, autoReport := false }

/-- Combined state of the monitor, its sub-detectors and the host page.
errorQueue is the ErrorHandler capture queue (capacity 100 under the
default configuration); the reporter is absent under the default
configuration because no endpoint is configured, so captured records
stay in errorQueue. -/
structure MonitorState where
  config : MonitorConfig
  isInitialized : Bool
  savedOnerror : Option Hook
  savedOnrejection : Option Hook
  frameIsMonitoring : Bool
  blankIsChecking : Bool
  errorQueue : List ErrorInfo
  host : HostState
deriving DecidableEq, Repr

/-- A freshly constructed monitor over a host whose hook slots hold the
given pre-existing values and which has no listeners or timers of the
monitor installed. -/
def mkMonitor (cfg : MonitorConfig) (preOnerror preOnrejection : Option Hook) : MonitorState :=
  { config := cfg, isInitialized := false,
    savedOnerror := none, savedOnrejection := none,
    frameIsMonitoring := false, blankIsChecking := false,
    errorQueue := [],
    host := { onerror := preOnerror, onunhandledrejection := preOnrejection,
              errorCaptureListeners := 0, scrollListeners := false,
              rafActive := false, updateIntervalActive := false,
              autoReportIntervalActive := false, scrollTimeoutActive := false,
              blankCheckTimerActive := false } }

/-- LeoWebMonitor.setupGlobalErrorHandlers: saves the current onerror
and onunhandledrejection values, overwrites both slots with the
monitor handlers, and adds one capturing error listener for resource
errors via window.addEventListener(..., true).  The listener is an
anonymous closure; no reference to it is retained. -/
def setupGlobalErrorHandlers (m : MonitorState) : MonitorState :=
  { m with
    savedOnerror := m.host.onerror,
    savedOnrejection := m.host.onunhandledrejection,
    host := { m.host with
              onerror := some Hook.monitorError,
              onunhandledrejection := some Hook.monitorRejection,
              errorCaptureListeners := m.host.errorCaptureListeners + 1 } }

/-- LeoWebMonitor.removeGlobalErrorHandlers: writes the saved values
back into the two hook slots (this.originalErrorHandler or null).  It
does not touch the capturing error listener added in
setupGlobalErrorHandlers. -/
def removeGlobalErrorHandlers (m : MonitorState) : MonitorState :=
  { m with
    host := { m.host with
              onerror := m.savedOnerror,
              onunhandledrejection := m.savedOnrejection } }

/-- BlankScreenDetector.start: guarded on enabled and isChecking, then
schedules the settle-delay check timer (document assumed ready). -/
def blankStart (m : MonitorState) : MonitorState :=
  if m.config.blankScreenEnabled = false ∨ m.blankIsChecking then m
  else { m with blankIsChecking := true,
                host := { m.host with blankCheckTimerActive := true } }

/-- BlankScreenDetector.stop: clears the check timer and the flag. -/
def blankStop (m : MonitorState) : MonitorState :=
  { m with blankIsChecking := false,
           host := { m.host with blankCheckTimerActive := false } }

/-- FrameMonitor.start: guarded on isMonitoring and enabled; schedules
the animation-frame chain and the periodic update interval, attaches
the scroll listeners when monitorScroll is set, and starts the
auto-report interval when autoReport is set. -/
def frameStart (m : MonitorState) : MonitorState :=
  if m.frameIsMonitoring then m
  else if m.config.frameMonitorEnabled = false then m
  else
    { m with frameIsMonitoring := true,
             host := { m.host with
                       rafActive := true,
                       updateIntervalActive := true,
                       scrollListeners :=
                         if m.config.monitorScroll then true else m.host.scrollListeners,
                       autoReportIntervalActive :=
                         if m.config.autoReport then true else m.host.autoReportIntervalActive } }

/-- FrameMonitor.stop: cancels the animation frame and the update
interval and removes the scroll listeners when monitorScroll is set.
It clears neither a pending scroll-idle timeout (scrollTimeoutId) nor
the auto-report interval, whose id setupAutoReport never stored. -/
def frameStop (m : MonitorState) : MonitorState :=
  if m.frameIsMonitoring = false then m
  else
    { m with frameIsMonitoring := false,
             host := { m.host with
                       rafActive := false,
                       updateIntervalActive := false,
                       scrollListeners :=
                         if m.config.monitorScroll then false else m.host.scrollListeners } }

/-- LeoWebMonitor.start: a second call while already started only logs
and returns.  Otherwise installs the global handlers when autoCapture
is set and starts the two sub-detectors when enabled. -/
def start (m : MonitorState) : MonitorState :=
  if m.isInitialized then m
  else
    let m1 := if m.config.autoCapture then setupGlobalErrorHandlers m else m
    let m2 := if m1.config.blankScreenEnabled then blankStart m1 else m1
    let m3 := if m2.config.frameMonitorEnabled then frameStart m2 else m2
    { m3 with isInitialized := true }

/-- LeoWebMonitor.stop: restores the hook slots unconditionally, stops
both sub-detectors, and clears the started flag. -/
def stop (m : MonitorState) : MonitorState :=
  if m.isInitialized = false then m
  else
    let m1 := removeGlobalErrorHandlers m
    let m2 := blankStop m1
    let m3 := frameStop m2
    { m3 with isInitialized := false }

/-- A scroll event delivered to the page: when the FrameMonitor scroll
listener is attached, handleScroll starts a scroll session and arms
the 150 ms scroll-idle timeout. -/
def scrollEvent (m : MonitorState) : MonitorState :=
  if m.host.scrollListeners then
    { m with host := { m.host with scrollTimeoutActive := true } }
  else m

/-- A script error raised in host-page code reaches the single onerror
slot.  When the slot holds the monitor handler, handleJavaScriptError
appends one record to the capture queue (default filter accepts every
record, capacity 100) and then chains to the saved original handler,
which does not touch the monitor state.  The capturing error listener
ignores the event because its target is the window itself
(event.target !== window guard), so at most one record results. -/
def dispatchScriptError (m : MonitorState) (e : ErrorInfo) : MonitorState :=
  match m.host.onerror with
  | some Hook.monitorError => { m with errorQueue := addToQueue 100 m.errorQueue e }
  | _ => m

/-- Invariant tying the Reporter ghost counters to its lists: every
accepted record is delivered, pending, or in flight; and no batch is
in flight while the single-flight flag is down. -/
def ReporterInv (s : ReporterState) : Prop :=
  s.acceptedCount = s.deliveredCount + s.reportQueue.length + s.inFlight.length ∧
  (s.isReporting = false → s.inFlight = [])

/-- A Reporter state holding a given nonempty pending batch and nothing
else: the state reached from fresh after accepting exactly that batch. -/
def reporterWithBatch (batch : List ErrorInfo) : ReporterState :=
  { initialReporterState with reportQueue := batch, acceptedCount := batch.length }

/-- A concrete Reporter state with one batch in flight and one record
that arrived during the attempt, used to instantiate witnesses. -/
def inFlightSampleState : ReporterState :=
  { reportQueue := [sampleError2], isReporting := true, inFlight := [sampleError],
    acceptedCount := 2, deliveredCount := 0 }

/-- A concrete FrameMonitor state: one frame observed, no long or
severe frames, one fps-history entry of exactly 60 fps. -/
def steadyFrameState : FrameMonitorState :=
  { frameCount := 1, longFrameCount := 0, severeFrameCount := 0, fpsHistory := [60] }

/- ------------------------------------------------------------------ -/
/- Theorems.                                                          -/
/- ------------------------------------------------------------------ -/

/-- Helper for the capture queue: folding accepted captures through
addToQueue from any queue not above capacity keeps exactly the last
capacity-many elements of the combined stream. -/
theorem foldl_addToQueue_drop (C : Nat) (hC : 1 ≤ C) :
    ∀ (es q : List ErrorInfo), q.length ≤ C →
      es.foldl (addToQueue C) q = (q ++ es).drop (q.length + es.length - C) := by
  intro es
  induction es with
  | nil =>
      intro q hq
      simp [Nat.sub_eq_zero_of_le hq]
  | cons e es ih =>
      intro q hq
      rw [List.foldl_cons]
      by_cases h : C ≤ q.length
      · have hqC : q.length = C := le_antisymm hq h
        have hstep : addToQueue C q e = q.tail ++ [e] := by simp [addToQueue, h]
        rw [hstep]
        cases q with
        | nil =>
            simp at hqC
            omega
        | cons a t =>
            have htC : t.length + 1 = C := by simpa using hqC
            have hlen : ((a :: t).tail ++ [e]).length ≤ C := by
              simp
              omega
            rw [ih _ hlen]
            simp only [List.tail_cons, List.append_assoc, List.singleton_append,
              List.cons_append, List.length_append, List.length_cons,
              List.length_singleton, List.length_nil]
            have h1 : t.length + 1 + es.length - C = es.length := by omega
            have h2 : t.length + 1 + (es.length + 1) - C = es.length + 1 := by omega
            rw [h1, h2, List.drop_succ_cons]
            simp only [List.nil_append]
      · have hql : q.length < C := Nat.lt_of_not_le h
        have hstep : addToQueue C q e = q ++ [e] := by simp [addToQueue, h]
        rw [hstep]
        have hlen : (q ++ [e]).length ≤ C := by
          simp
          omega
        rw [ih _ hlen]
        simp only [List.append_assoc, List.singleton_append, List.length_append,
          List.length_cons, List.length_singleton, List.length_nil]
        have h3 : q.length + 1 + es.length - C = q.length + (es.length + 1) - C := by omega
        rw [h3]

/-- C5 (amended): for every configured capacity C with C at least 1 and
every sequence of more than C accepted captures, the retained error
queue is exactly the last C captures in their original relative order,
and its length is exactly C.  (With capacity 0 the code still retains
one record, see the counterexample.) -/
theorem c5_retained_last_capacity_amended (C : Nat) (es : List ErrorInfo)
    (hC : 1 ≤ C) (hN : C < es.length) :
    runCaptures C es = es.drop (es.length - C) ∧ (runCaptures C es).length = C := by
  have h := foldl_addToQueue_drop C hC es [] (by simp)
  simp only [List.nil_append, List.length_nil, Nat.zero_add] at h
  refine ⟨by simpa [runCaptures] using h, ?_⟩
  rw [runCaptures, h]
  simp
  omega

/-- C5 witness: with capacity 1 and two captures, the retained queue is
the last capture alone. -/
theorem c5_retained_last_capacity_amended_witness :
    runCaptures 1 [sampleError, sampleError2] =
      ([sampleError, sampleError2].drop ([sampleError, sampleError2].length - 1)) ∧
    (runCaptures 1 [sampleError, sampleError2]).length = 1 :=
  c5_retained_last_capacity_amended 1 [sampleError, sampleError2] (by decide) (by decide)

/-- C5 counterexample: with configured capacity 0 and one capture
(1 > 0), the retained queue is not the last 0 captures: the length
check 0 >= 0 fires shift-then-push, so one record is retained. -/
theorem c5_capacity_zero_counterexample :
    runCaptures 0 [sampleError] ≠ [sampleError].drop ([sampleError].length - 0) := by
  decide

/-- C2 (amended): Reporter.addToReportQueue appends every arriving
record to the pending list unconditionally; the pending list length
grows by the arrival size, with no capacity check and no eviction.
(The oldest-first bounded eviction exists only in the capture-side
ErrorHandler queue.) -/
theorem c2_report_queue_append_amended (s : ReporterState) (errors : List ErrorInfo) :
    (addToReportQueue s errors).reportQueue = s.reportQueue ++ errors ∧
    getPendingCount (addToReportQueue s errors) = getPendingCount s + errors.length := by
  simp [addToReportQueue, getPendingCount]

/-- C2 counterexample: a single arrival of 101 records into a fresh
Reporter leaves a pending list of length 101, exceeding the configured
queue capacity (maxErrorQueueSize defaults to 100; the Reporter takes
no capacity parameter at all). -/
theorem c2_report_queue_unbounded_counterexample :
    getPendingCount
        (reporterStep initialReporterState
          (ReporterEvent.add (List.replicate 101 sampleError))) = 101 ∧
      100 < 101 := by
  refine ⟨?_, by omega⟩
  simp [reporterStep, addToReportQueue, getPendingCount, initialReporterState]

/-- Helper: one Reporter step preserves the accounting invariant. -/
theorem reporterStep_inv (s : ReporterState) (ev : ReporterEvent)
    (h : ReporterInv s) : ReporterInv (reporterStep s ev) := by
  obtain ⟨h1, h2⟩ := h
  cases ev with
  | add errors =>
      refine ⟨?_, ?_⟩
      · simp [reporterStep, addToReportQueue]
        omega
      · simpa [reporterStep, addToReportQueue] using h2
  | flushStart =>
      by_cases hg : s.isReporting = true ∨ s.reportQueue = []
      · constructor <;> simp [reporterStep, hg] <;> [exact h1; exact h2]
      · push_neg at hg
        have hrep : s.isReporting = false := by
          cases hb : s.isReporting
          · rfl
          · exact absurd hb hg.1
        have hfl : s.inFlight = [] := h2 hrep
        refine ⟨?_, ?_⟩
        · simp [reporterStep, hrep, hg.2, hfl] at h1 ⊢
          omega
        · simp [reporterStep, hrep, hg.2]
  | flushSuccess =>
      by_cases hr : s.isReporting = true
      · refine ⟨?_, ?_⟩
        · simp [reporterStep, hr]
          omega
        · simp [reporterStep, hr]
      · have hrf : s.isReporting = false := by simpa using hr
        refine ⟨?_, ?_⟩
        · simpa [reporterStep, hrf] using h1
        · simp [reporterStep, hrf]
          exact h2 hrf
  | flushFail =>
      by_cases hr : s.isReporting = true
      · refine ⟨?_, ?_⟩
        · simp [reporterStep, hr]
          omega
        · simp [reporterStep, hr]
      · have hrf : s.isReporting = false := by simpa using hr
        refine ⟨?_, ?_⟩
        · simpa [reporterStep, hrf] using h1
        · simp [reporterStep, hrf]
          exact h2 hrf

/-- Helper: the accounting invariant holds in every reachable Reporter
state. -/
theorem runReporter_inv (events : List ReporterEvent) : ReporterInv (runReporter events) := by
  have hgen : ∀ (evs : List ReporterEvent) (s : ReporterState),
      ReporterInv s → ReporterInv (evs.foldl reporterStep s) := by
    intro evs
    induction evs with
    | nil => intro s h; exact h
    | cons ev evs ih =>
        intro s h
        exact ih _ (reporterStep_inv s ev h)
  refine hgen events initialReporterState ?_
  refine ⟨by simp [initialReporterState], fun _ => by simp [initialReporterState]⟩

/-- C3 (amended): getPendingCount returns the length of the pending
list; whenever no flush attempt is outstanding this equals the number
of accepted records not yet successfully delivered.  While a flush is
outstanding, the detached in-flight batch is not counted (see the
counterexample). -/
theorem c3_pending_count_amended (events : List ReporterEvent)
    (h : (runReporter events).isReporting = false) :
    getPendingCount (runReporter events) =
      (runReporter events).acceptedCount - (runReporter events).deliveredCount := by
  obtain ⟨h1, h2⟩ := runReporter_inv events
  have hfl := h2 h
  rw [hfl] at h1
  simp only [List.length_nil] at h1
  simp only [getPendingCount]
  omega

/-- C3 witness: after one arrival and no flush, the pending count is
the one accepted, undelivered record. -/
theorem c3_pending_count_amended_witness :
    (runReporter [ReporterEvent.add [sampleError]]).isReporting = false ∧
    getPendingCount (runReporter [ReporterEvent.add [sampleError]]) =
      (runReporter [ReporterEvent.add [sampleError]]).acceptedCount -
        (runReporter [ReporterEvent.add [sampleError]]).deliveredCount :=
  ⟨by decide, c3_pending_count_amended [ReporterEvent.add [sampleError]] (by decide)⟩

/-- C3 counterexample: one record is accepted and a flush starts; while
the flush attempt is outstanding, the accepted record has not been
delivered, yet getPendingCount returns 0 rather than 1, because
batchReport detached the whole pending list into its local batch. -/
theorem c3_pending_count_inflight_counterexample :
    (runReporter [ReporterEvent.add [sampleError], ReporterEvent.flushStart]).isReporting = true ∧
    getPendingCount
        (runReporter [ReporterEvent.add [sampleError], ReporterEvent.flushStart]) = 0 ∧
    (runReporter [ReporterEvent.add [sampleError], ReporterEvent.flushStart]).acceptedCount -
        (runReporter [ReporterEvent.add [sampleError],
          ReporterEvent.flushStart]).deliveredCount = 1 := by
  decide

/-- C4: when the outstanding batch exhausts all delivery attempts, the
catch block re-prepends the whole batch, in its original internal
order, ahead of every record that arrived during the failed attempt;
the step is total (the failure is logged, never rethrown).  In
particular, flushing a nonempty batch against an always-failing
transport with no concurrent arrivals leaves exactly the original
batch pending, so the pending count equals the batch size. -/
theorem c4_failed_batch_requeued_front (s : ReporterState) (hs : s.isReporting = true)
    (batch : List ErrorInfo) (hb : batch ≠ []) :
    (reporterStep s ReporterEvent.flushFail).reportQueue = s.inFlight ++ s.reportQueue ∧
    (List.foldl reporterStep (reporterWithBatch batch)
        [ReporterEvent.flushStart, ReporterEvent.flushFail]).reportQueue = batch ∧
    getPendingCount
        (List.foldl reporterStep (reporterWithBatch batch)
          [ReporterEvent.flushStart, ReporterEvent.flushFail]) = batch.length := by
  refine ⟨by simp [reporterStep, hs], ?_, ?_⟩ <;>
    simp [reporterStep, reporterWithBatch, initialReporterState, hb, getPendingCount]

/-- C4 witness: a batch of one record in flight, with one record that
arrived during the attempt, is re-prepended ahead of the arrival; and
the concrete always-failing flush of a singleton batch leaves pending
count 1. -/
theorem c4_failed_batch_requeued_front_witness :
    inFlightSampleState.isReporting = true ∧
    ([sampleError] : List ErrorInfo) ≠ [] ∧
    ((reporterStep inFlightSampleState ReporterEvent.flushFail).reportQueue =
        inFlightSampleState.inFlight ++ inFlightSampleState.reportQueue ∧
      (List.foldl reporterStep (reporterWithBatch [sampleError])
          [ReporterEvent.flushStart, ReporterEvent.flushFail]).reportQueue = [sampleError] ∧
      getPendingCount
          (List.foldl reporterStep (reporterWithBatch [sampleError])
            [ReporterEvent.flushStart, ReporterEvent.flushFail]) = [sampleError].length) :=
  ⟨rfl, by decide,
    c4_failed_batch_requeued_front inFlightSampleState rfl [sampleError] (by decide)⟩

/-- C1 counterexample: in the state with one observed frame, no long or
severe frames, and average fps 60, the source score is 100 while the
formula worded in the specification evaluates to 50: the code adds the
fps contribution to a base of 100 - 50 = 50, not to 0. -/
theorem c1_smooth_score_formula_counterexample :
    calculateSmoothScore steadyFrameState = 100 ∧
    specSmoothScore steadyFrameState = 50 := by
  constructor <;>
    norm_num [calculateSmoothScore, specSmoothScore, calculateAvgFPS, steadyFrameState]

/-- C1 (amended): for every monitor state the source score equals
clamp((min(avgFps/60, 1) x 50) + 50 - longRatio x 30 -
severeRatio x 50, 0, 100) rounded to an integer (the specification
formula is 50 too low); the score surfaced by getPerformanceData is
exactly calculateSmoothScore; and with zero observed frame samples the
score is 100. -/
theorem c1_smooth_score_amended (st : FrameMonitorState) :
    calculateSmoothScore st = amendedSmoothScore st ∧
    (getPerformanceData st).smoothScore = calculateSmoothScore st ∧
    calculateSmoothScore { st with frameCount := 0 } = 100 := by
  refine ⟨?_, rfl, by simp [calculateSmoothScore]⟩
  by_cases h0 : st.frameCount = 0
  · simp [calculateSmoothScore, amendedSmoothScore, h0]
  · have key : ∀ L S F : ℚ, 0 ≤ L → 0 ≤ S → F ≤ 50 →
        round (max 0 (100 - L * 30 - S * 50 + (F - 50))) =
          round (min 100 (max 0 (F + 50 - L * 30 - S * 50))) := by
      intro L S F hL hS hF
      have hX : (100 : ℚ) - L * 30 - S * 50 + (F - 50) = F + 50 - L * 30 - S * 50 := by
        ring
      rw [hX, min_eq_right (max_le (by norm_num) (by nlinarith))]
    have hF : min (calculateAvgFPS st / 60) 1 * 50 ≤ 50 := by
      have h1 : min (calculateAvgFPS st / 60) 1 ≤ 1 := min_le_right _ _
      linarith
    simp only [calculateSmoothScore, amendedSmoothScore, if_neg h0]
    exact key _ _ _ (by positivity) (by positivity) hF

/-- Helper: the retry loop makes at most remaining attempts. -/
theorem sendLoop_attempts_le (succeeds : Nat → Bool) :
    ∀ (r a : Nat), (sendLoop succeeds a r).attempts ≤ r := by
  intro r
  induction r with
  | zero => intro a; simp [sendLoop]
  | succ r ih =>
      intro a
      by_cases hs : succeeds a
      · simp [sendLoop, hs]
      · by_cases hr : r = 0
        · simp [sendLoop, hs, hr]
        · have := ih (a + 1)
          simp [sendLoop, hs, hr]
          omega

/-- Helper: with at least one attempt allowed, the loop makes at least
one attempt. -/
theorem sendLoop_attempts_pos (succeeds : Nat → Bool) :
    ∀ (r a : Nat), 1 ≤ r → 1 ≤ (sendLoop succeeds a r).attempts := by
  intro r
  cases r with
  | zero => intro a h; exact absurd h (by omega)
  | succ r =>
      intro a _
      by_cases hs : succeeds a
      · simp [sendLoop, hs]
      · by_cases hr : r = 0 <;> simp [sendLoop, hs, hr]

/-- Helper: the backoff delays awaited by the retry loop starting at
attempt index a are exactly 2 ^ (a - 1 + i) * 1000 for i running over
the retried attempts. -/
theorem sendLoop_delays (succeeds : Nat → Bool) :
    ∀ (r a : Nat), 1 ≤ a →
      (sendLoop succeeds a r).delays =
        (List.range ((sendLoop succeeds a r).attempts - 1)).map
          (fun i => 2 ^ (a - 1 + i) * 1000) := by
  intro r
  induction r with
  | zero => intro a _; simp [sendLoop]
  | succ r ih =>
      intro a ha
      by_cases hs : succeeds a
      · simp [sendLoop, hs]
      · by_cases hr : r = 0
        · simp [sendLoop, hs, hr]
        · have hpos : 1 ≤ (sendLoop succeeds (a + 1) r).attempts :=
            sendLoop_attempts_pos succeeds r (a + 1) (by omega)
          have hihs := ih (a + 1) (by omega)
          obtain ⟨n, hn⟩ : ∃ n, (sendLoop succeeds (a + 1) r).attempts = n + 1 :=
            ⟨(sendLoop succeeds (a + 1) r).attempts - 1,
              (Nat.succ_pred_eq_of_pos hpos).symm⟩
          simp only [sendLoop, hs, hr, Bool.false_eq_true, if_false, ite_false]
          rw [hihs, hn]
          simp only [Nat.add_sub_cancel]
          rw [List.range_succ_eq_map, List.map_cons, List.map_map]
          simp only [List.cons_eq_cons]
          refine ⟨by simp, ?_⟩
          apply List.map_congr_left
          intro i _
          simp only [Function.comp_apply, Nat.succ_eq_add_one]
          have hx : a + i = a - 1 + (i + 1) := by omega
          rw [hx]

/-- Helper: against a transport that always fails, the loop uses every
allowed attempt and ends in the thrown error (REPORT_FAILED when the
loop body ran, the fall-through UNEXPECTED_ERROR when retryTimes was
0). -/
theorem sendLoop_allfail :
    ∀ (r a : Nat), (sendLoop (fun _ => false) a r).attempts = r ∧
      (sendLoop (fun _ => false) a r).outcome =
        Except.error (if r = 0 then unexpectedError else reportFailedError) := by
  intro r
  induction r with
  | zero => intro a; simp [sendLoop]
  | succ r ih =>
      intro a
      by_cases hr : r = 0
      · simp [sendLoop, hr]
      · obtain ⟨ih1, ih2⟩ := ih (a + 1)
        refine ⟨?_, ?_⟩
        · simp [sendLoop, hr, ih1]
        · rw [if_neg (by omega)]
          simp only [sendLoop, hr, Bool.false_eq_true, if_false, ite_false]
          rw [ih2, if_neg hr]

/-- C6: for every transport behaviour and configured retry count, the
number of attempts never exceeds the retry count; the i-th backoff
delay (0-based, so following the (i+1)-th attempt) is exactly
2 ^ i * 1000 ms, the exponential base x 2 ^ (attempt - 1) schedule
with base 1000 ms; and against a transport that always fails every
allowed attempt is used and the send resolves to a thrown error. -/
theorem c6_retry_backoff_bounded (succeeds : Nat → Bool) (retryTimes : Nat) :
    (sendRequest succeeds retryTimes).attempts ≤ retryTimes ∧
    (sendRequest succeeds retryTimes).delays =
      (List.range ((sendRequest succeeds retryTimes).attempts - 1)).map
        (fun i => 2 ^ i * 1000) ∧
    (sendRequest (fun _ => false) retryTimes).attempts = retryTimes ∧
    (sendRequest (fun _ => false) retryTimes).outcome =
      Except.error (if retryTimes = 0 then unexpectedError else reportFailedError) := by
  refine ⟨sendLoop_attempts_le succeeds retryTimes 1, ?_,
    (sendLoop_allfail retryTimes 1).1, (sendLoop_allfail retryTimes 1).2⟩
  have h := sendLoop_delays succeeds retryTimes 1 (le_refl 1)
  simpa [sendRequest] using h

/-- C8: with a nonzero viewport and at least one sampled point, the
viewport is classified blank exactly when blankPoints / sampleCount
reaches the threshold; with the default sampleCount 10 and threshold
0.8, the classification is true at 8, 9 and 10 blank points and false
at 7. -/
theorem c8_blank_threshold_iff (cfg : BlankScreenConfig) (vw vh blankPoints : Nat)
    (hw : vw ≠ 0) (hh : vh ≠ 0) (_hs : 1 ≤ cfg.sampleCount) :
    (detectBlankScreen cfg vw vh blankPoints = true ↔
      cfg.threshold ≤ (blankPoints : ℚ) / (cfg.sampleCount : ℚ)) ∧
    detectBlankScreen defaultBlankScreenConfig 1024 768 8 = true ∧
    detectBlankScreen defaultBlankScreenConfig 1024 768 9 = true ∧
    detectBlankScreen defaultBlankScreenConfig 1024 768 10 = true ∧
    detectBlankScreen defaultBlankScreenConfig 1024 768 7 = false := by
  refine ⟨?_, ?_, ?_, ?_, ?_⟩
  · simp [detectBlankScreen, hw, hh]
  all_goals norm_num [detectBlankScreen, defaultBlankScreenConfig]

/-- C8 witness: the default configuration at a 1024 x 768 viewport
with 8 of 10 points blank. -/
theorem c8_blank_threshold_iff_witness :
    (1024 : Nat) ≠ 0 ∧ (768 : Nat) ≠ 0 ∧ 1 ≤ defaultBlankScreenConfig.sampleCount ∧
    ((detectBlankScreen defaultBlankScreenConfig 1024 768 8 = true ↔
        defaultBlankScreenConfig.threshold ≤
          ((8 : Nat) : ℚ) / (defaultBlankScreenConfig.sampleCount : ℚ)) ∧
      detectBlankScreen defaultBlankScreenConfig 1024 768 8 = true ∧
      detectBlankScreen defaultBlankScreenConfig 1024 768 9 = true ∧
      detectBlankScreen defaultBlankScreenConfig 1024 768 10 = true ∧
      detectBlankScreen defaultBlankScreenConfig 1024 768 7 = false) :=
  ⟨by decide, by decide, by decide,
    c8_blank_threshold_iff defaultBlankScreenConfig 1024 768 8
      (by decide) (by decide) (by decide)⟩

/-- C10: a viewport of zero width or zero height is classified blank
before any sampling, for every configuration and every per-point
outcome, and the manual on-demand check returns the same positive
outcome. -/
theorem c10_zero_viewport_blank (cfg : BlankScreenConfig) (vw vh blankPoints : Nat)
    (h : vw = 0 ∨ vh = 0) :
    detectBlankScreen cfg vw vh blankPoints = true ∧
    manualCheck cfg vw vh blankPoints = true := by
  constructor <;> simp [detectBlankScreen, manualCheck, h]

/-- C10 witness: a zero-width viewport with the default configuration
and no blank sample points is still classified blank. -/
theorem c10_zero_viewport_blank_witness :
    ((0 : Nat) = 0 ∨ (768 : Nat) = 0) ∧
    (detectBlankScreen defaultBlankScreenConfig 0 768 0 = true ∧
      manualCheck defaultBlankScreenConfig 0 768 0 = true) :=
  ⟨by decide, c10_zero_viewport_blank defaultBlankScreenConfig 0 768 0 (by decide)⟩

/-- Helper: start leaves the monitor marked as started. -/
theorem start_isInitialized (m : MonitorState) : (start m).isInitialized = true := by
  by_cases h : m.isInitialized
  · simp [start, h]
  · simp [start, h]

/-- Helper: start on an already started monitor only logs and returns
the state unchanged. -/
theorem start_of_isInitialized (m : MonitorState) (h : m.isInitialized = true) :
    start m = m := by
  simp [start, h]

/-- C9: start is idempotent (a second call while started is a complete
no-op on the monitor and the host, installing no additional hooks,
listeners or timers), and after two start calls on a fresh monitor
with the default configuration, a single script fault raised in
host-page code yields exactly one captured record. -/
theorem c9_start_idempotent (m : MonitorState) :
    start (start m) = start m ∧
    (dispatchScriptError (start (start (mkMonitor defaultMonitorConfig none none)))
        sampleError).errorQueue.length = 1 :=
  ⟨start_of_isInitialized (start m) (start_isInitialized m), by decide⟩

/-- C7 counterexample: from a fresh monitor under the default
configuration, after start, one scroll signal and stop, the capturing
resource-error listener installed at start remains installed (count 1
versus 0 before start) and the armed scroll-idle timer is still
active: stop does not reverse every installation. -/
theorem c7_stop_leaves_listener_counterexample :
    (stop (scrollEvent (start
        (mkMonitor defaultMonitorConfig none none)))).host.errorCaptureListeners = 1 ∧
    (stop (scrollEvent (start
        (mkMonitor defaultMonitorConfig none none)))).host.scrollTimeoutActive = true ∧
    (mkMonitor defaultMonitorConfig none none).host.errorCaptureListeners = 0 ∧
    (mkMonitor defaultMonitorConfig none none).host.scrollTimeoutActive = false := by
  decide

/-- C7 (amended): after start then stop on a fresh monitor, the two
hook slots are restored to their pre-start values when autoCapture is
enabled (with autoCapture disabled, stop resets both slots to null
even if handlers pre-existed); the animation-frame chain, the periodic
update timer and the blank-check timer are cancelled and the scroll
listeners removed; but the capturing resource-error listener installed
at start is never removed, and an active scroll-idle timer is not
cancelled (see the counterexample). -/
theorem c7_stop_partial_reversal_amended (cfg : MonitorConfig) (preE preR : Option Hook) :
    (stop (start (mkMonitor cfg preE preR))).host.onerror =
        (if cfg.autoCapture then preE else none) ∧
    (stop (start (mkMonitor cfg preE preR))).host.onunhandledrejection =
        (if cfg.autoCapture then preR else none) ∧
    (stop (start (mkMonitor cfg preE preR))).host.rafActive = false ∧
    (stop (start (mkMonitor cfg preE preR))).host.updateIntervalActive = false ∧
    (stop (start (mkMonitor cfg preE preR))).host.blankCheckTimerActive = false ∧
    (stop (start (mkMonitor cfg preE preR))).host.scrollListeners = false ∧
    (stop (start (mkMonitor cfg preE preR))).host.errorCaptureListeners =
        (if cfg.autoCapture then 1 else 0) := by
  obtain ⟨ac, bs, fm, ms, ar⟩ := cfg
  cases ac <;> cases bs <;> cases fm <;> cases ms <;> cases ar <;>
    simp [mkMonitor, start, stop, setupGlobalErrorHandlers, removeGlobalErrorHandlers,
      blankStart, blankStop, frameStart, frameStop]

end LeoMonitor
